import Mathlib

/-!
Verification of the Report Writing Studio front-end state machine
(`fullstack-app/frontend/src/App.jsx`).

The component keeps its whole state in a flat collection of `useState`
hooks; we embed that state as the record `AppState`.  Event handlers
become pure transition functions on `AppState`; the asynchronous network
outcome of a submission is passed in explicitly as a `NetResult`, and the
requests a transition issues are returned alongside the new state so that
"zero network calls" is a statement about the returned list.
-/

set_option maxHeartbeats 1000000

namespace ReportStudio

/-- Submission mode: `useState('recording')`, toggled between the two
mode buttons. -/
inductive Mode
  | recording
  | transcript
  deriving DecidableEq, Repr

/-- The company metadata object (`useState` at App.jsx lines 29-36).
Fields are `Option String`: `none` embeds a JavaScript `null`/`undefined`
field value, which `missingFields` must tolerate because of its
optional-chaining guard `company[key]?.trim()`. -/
structure CompanyProfile where
  company_name : Option String
  country : Option String
  consultation_date : Option String
  experts : Option String
  customer_manager : Option String
  consultation_type : Option String
  deriving DecidableEq, Repr

/-- One entry of a verification round's `issues` array. -/
structure Issue where
  type : String
  «section» : String
  description : String
  suggestion : String
  deriving DecidableEq, Repr

/-- One AI verification round as delivered by the service.  The JS score
is a number; the rounds exercised here carry integer scores. -/
structure VerificationRound where
  score : Int
  summary : String
  decision_explanation : String
  issues : List Issue
  strengths : List String
  deriving DecidableEq, Repr

/-- One entry of `revision_history`. -/
structure RevisionEntry where
  revision_summary : String
  deriving DecidableEq, Repr

/-- The `results` object of a successful generation response. -/
structure ReportResults where
  status : String
  verification_history : List VerificationRound
  revision_history : List RevisionEntry
  deriving DecidableEq, Repr

/-- The `verificationRounds` state starts as the number `5` but the
number-input `onChange` stores `event.target.value`, a string; so the
stored value is a JavaScript number-or-string. -/
inductive NumOrStr
  | num (n : Int)
  | str (s : String)
  deriving DecidableEq, Repr

/-- The whole component state: one field per `useState` hook of `App`
(App.jsx lines 21-50), in source order. -/
structure AppState where
  mode : Mode
  recordingFile : Option String
  transcript : String
  transcriptFileName : String
  meetingNotes : String
  additionalInstructions : String
  company : CompanyProfile
  useAzure : Bool
  selectedModel : String
  verificationRounds : NumOrStr
  useLanggraph : Bool
  compressAudio : Bool
  loading : Bool
  error : String
  reportId : String
  results : Option ReportResults
  selectedVerificationRound : Int
  authUser : String
  authPassword : String
  authShowPassword : Bool
  authToken : String
  deriving DecidableEq, Repr

/-! ## Field validator -/

/-- The keys of the `required` table in `missingFields`. -/
inductive FieldKey
  | company_name
  | country
  | consultation_date
  | experts
  | customer_manager
  | consultation_type
  deriving DecidableEq, Repr

/-- Dynamic field access `company[key]`. -/
def CompanyProfile.get (c : CompanyProfile) : FieldKey → Option String
  | .company_name => c.company_name
  | .country => c.country
  | .consultation_date => c.consultation_date
  | .experts => c.experts
  | .customer_manager => c.customer_manager
  | .consultation_type => c.consultation_type

/-- JavaScript `s.trim()`: drop leading and trailing whitespace.
Stated structurally over the character list (rather than through
`String.trim`'s substring machinery) so that it reduces on literals;
the whitespace set is the ASCII one the inputs here use. -/
def jsTrim (s : String) : String :=
  ⟨((s.data.dropWhile Char.isWhitespace).reverse.dropWhile Char.isWhitespace).reverse⟩

/-- `!value?.trim()`: true when the field is `null`/`undefined` (the
optional chain yields `undefined`, which is falsy) or trims to the empty
string (which is falsy). -/
def jsIsBlank : Option String → Bool
  | none => true
  | some s => jsTrim s = ""

/-- The `required` key/label table of `missingFields` (App.jsx 53-60),
in its declared order. -/
def requiredFields : List (FieldKey × String) :=
  [(.company_name, "Company name"),
   (.country, "Country"),
   (.consultation_date, "Consultation date"),
   (.experts, "Experts"),
   (.customer_manager, "Customer manager"),
   (.consultation_type, "Consultation type")]

/-- `missingFields` (App.jsx 52-64): filter the required table down to
the blank fields, keep the labels. -/
def missingFields (c : CompanyProfile) : List String :=
  (requiredFields.filter fun kv => jsIsBlank (c.get kv.1)).map fun kv => kv.2

/-! ## Defaults, clear-all, verification-rounds input -/

/-- The `additionalInstructions` initial value, also restored by
clear-all (App.jsx 26-28 and 100-102). -/
def defaultAdditionalInstructions : String :=
  "Do not focus on the company\x27s name in the transcript. Use the same company name as given in the company information."

/-- The `company` initial value, also restored by clear-all
(App.jsx 29-36 and 103-110). -/
def defaultCompany : CompanyProfile :=
  { company_name := some ""
    country := some "Finland"
    consultation_date := some ""
    experts := some "Umair Ali Khan, Janne Kauttonen"
    customer_manager := some ""
    consultation_type := some "Regular" }

/-- The component's initial state (App.jsx 21-50).  `storedToken` is
what `localStorage.getItem` returned; `getItem` yields `null` when the
key is absent and `null || chaining` gives the empty string. -/
def initialState (storedToken : Option String) : AppState :=
  { mode := Mode.recording
    recordingFile := none
    transcript := ""
    transcriptFileName := ""
    meetingNotes := ""
    additionalInstructions := defaultAdditionalInstructions
    company := defaultCompany
    useAzure := true
    selectedModel := "gpt-5.1"
    verificationRounds := NumOrStr.num 5
    useLanggraph := true
    compressAudio := true
    loading := false
    error := ""
    reportId := ""
    results := none
    selectedVerificationRound := 1
    authUser := ""
    authPassword := ""
    authShowPassword := false
    authToken := storedToken.getD "" }

/-- `resetResults` (App.jsx 89-92). -/
def resetResults (s : AppState) : AppState :=
  { s with reportId := "", results := none }

/-- `handleClearAll` (App.jsx 94-119): the sequence of setter calls,
ending in `resetResults`. -/
def handleClearAll (s : AppState) : AppState :=
  resetResults
    { s with
      mode := Mode.transcript
      recordingFile := none
      transcript := ""
      transcriptFileName := ""
      meetingNotes := ""
      additionalInstructions := defaultAdditionalInstructions
      company := defaultCompany
      useAzure := true
      selectedModel := "gpt-5.1"
      verificationRounds := NumOrStr.num 5
      useLanggraph := true
      compressAudio := true
      error := ""
      selectedVerificationRound := 1 }

/-- The verification-rounds number input's `onChange` (App.jsx 378):
`setVerificationRounds(event.target.value)` stores the raw input string
as-is. -/
def setVerificationRoundsFromInput (s : AppState) (inputValue : String) : AppState :=
  { s with verificationRounds := NumOrStr.str inputValue }

/-- Whether a stored `verificationRounds` value is an integer in the
documented range 1-5. -/
def vrIsIntInRange : NumOrStr → Bool
  | NumOrStr.num n => 1 ≤ n ∧ n ≤ 5
  | NumOrStr.str _ => false

/-! ## Request building and submission -/

/-- The two generation endpoints. -/
inductive Endpoint
  | fromTranscript
  | fromRecording
  deriving DecidableEq, Repr

/-- A value carried by one field of a request body.  The JSON body of
the transcript request carries strings, booleans, a number and the
company object; the multipart body carries strings and the file.
`int none` embeds a `NaN` produced by `Number()` on a non-numeric
string. -/
inductive BodyVal
  | str (s : String)
  | int (n : Option Int)
  | bool (b : Bool)
  | obj (c : CompanyProfile)
  | file (f : String)
  deriving DecidableEq, Repr

/-- One outgoing request: endpoint plus ordered body fields. -/
structure Request where
  endpoint : Endpoint
  body : List (String × BodyVal)
  deriving DecidableEq, Repr

/-- `Number(s)` on the values a number input or the initial state can
hold: the empty (or all-whitespace) string converts to 0, an integer
string to its value; `none` stands for `NaN`. -/
def jsNumberOfString (s : String) : Option Int :=
  if jsTrim s = "" then some 0 else (jsTrim s).toInt?

/-- `Number(verificationRounds)` (App.jsx 154). -/
def jsNumber : NumOrStr → Option Int
  | NumOrStr.num n => some n
  | NumOrStr.str s => jsNumberOfString s

/-- `String(verificationRounds)` (App.jsx 167). -/
def jsString : NumOrStr → String
  | NumOrStr.num n => toString n
  | NumOrStr.str s => s

/-- `String(b)` for a boolean (App.jsx 165, 168, 169). -/
def jsStringOfBool (b : Bool) : String :=
  if b then "true" else "false"

/-- String escaping as done by `JSON.stringify`, restricted to the
quote and backslash cases. -/
def jsEscape (s : String) : String :=
  String.join (s.toList.map fun c =>
    if c = '"' then "\\\""
    else if c = '\\' then "\\\\"
    else String.singleton c)

/-- One `"key":value` JSON member; a `null` field serializes as
`null`. -/
def jsonField (k : String) (v : Option String) : String :=
  "\"" ++ k ++ "\":" ++
    (match v with
     | none => "null"
     | some s => "\"" ++ jsEscape s ++ "\"")

/-- `JSON.stringify(company)` (App.jsx 162). -/
def jsonStringifyCompany (c : CompanyProfile) : String :=
  "\x7b" ++
    String.intercalate ","
      [jsonField "company_name" c.company_name,
       jsonField "country" c.country,
       jsonField "consultation_date" c.consultation_date,
       jsonField "experts" c.experts,
       jsonField "customer_manager" c.customer_manager,
       jsonField "consultation_type" c.consultation_type] ++
  "\x7d"

/-- The request the submit handler issues, by mode: the structured JSON
body posted to `/reports/from-transcript` (App.jsx 147-156) or the
`FormData` posted to `/reports/from-recording` (App.jsx 160-171), with
its fields in `append` order and every non-file value a string. -/
def buildRequest (s : AppState) : Request :=
  match s.mode with
  | Mode.transcript =>
    { endpoint := Endpoint.fromTranscript
      body :=
        [("transcript", BodyVal.str s.transcript),
         ("company_data", BodyVal.obj s.company),
         ("meeting_notes", BodyVal.str s.meetingNotes),
         ("additional_instructions", BodyVal.str s.additionalInstructions),
         ("use_azure", BodyVal.bool s.useAzure),
         ("selected_model", BodyVal.str s.selectedModel),
         ("verification_rounds", BodyVal.int (jsNumber s.verificationRounds)),
         ("use_langgraph", BodyVal.bool s.useLanggraph)] }
  | Mode.recording =>
    { endpoint := Endpoint.fromRecording
      body :=
        [("file", BodyVal.file (s.recordingFile.getD "")),
         ("company_data", BodyVal.str (jsonStringifyCompany s.company)),
         ("meeting_notes", BodyVal.str s.meetingNotes),
         ("additional_instructions", BodyVal.str s.additionalInstructions),
         ("use_azure", BodyVal.str (jsStringOfBool s.useAzure)),
         ("selected_model", BodyVal.str s.selectedModel),
         ("verification_rounds", BodyVal.str (jsString s.verificationRounds)),
         ("compress_audio", BodyVal.str (jsStringOfBool s.compressAudio)),
         ("use_langgraph", BodyVal.str (jsStringOfBool s.useLanggraph))] }

/-- The state updates performed at the top of the `try` block before the
network call: `setLoading(true)`, `setError('')`, `resetResults()`
(App.jsx 142-144). -/
def startCall (s : AppState) : AppState :=
  resetResults { s with loading := true, error := "" }

/-- What the local (pre-network) part of `handleSubmit` decides:
either a rejection with the error set and no request, or a request
together with the state as updated before the call. -/
inductive SubmitStep
  | rejected (s : AppState)
  | sent (req : Request) (s : AppState)
  deriving DecidableEq, Repr

/-- The precondition chain of `handleSubmit` (App.jsx 121-144): four
guards in source order, each returning early with its own error message;
only when all pass is the request built and the call started. -/
def handleSubmitLocal (s : AppState) : SubmitStep :=
  if s.authToken = "" then
    SubmitStep.rejected { s with error := "Please log in to generate a report." }
  else if missingFields s.company ≠ [] then
    SubmitStep.rejected
      { s with error := "Missing required fields: " ++ String.intercalate ", " (missingFields s.company) }
  else if s.mode = Mode.transcript ∧ jsTrim s.transcript = "" then
    SubmitStep.rejected { s with error := "Please provide a transcript before generating the report." }
  else if s.mode = Mode.recording ∧ s.recordingFile = none then
    SubmitStep.rejected { s with error := "Please upload a recording before generating the report." }
  else
    SubmitStep.sent (buildRequest s) (startCall s)

/-- The outcome of the awaited network call: a parsed success response
(`report_id`, `results`) or a failure whose message is
`err.response?.data?.detail || err.message`. -/
inductive NetResult
  | success (report_id : String) (results : ReportResults)
  | failure (msg : String)
  deriving DecidableEq, Repr

/-- The success/catch/finally tail of `handleSubmit` (App.jsx 157-179):
on success store `report_id` and `results`; on failure set the error;
either way `setLoading(false)`. -/
def finishCall (s : AppState) : NetResult → AppState
  | NetResult.success rid res =>
    { s with reportId := rid, results := some res, loading := false }
  | NetResult.failure msg =>
    { s with error := msg, loading := false }

/-- The whole of `handleSubmit` (App.jsx 121-180) as a transition: the
resulting state together with the list of requests issued (empty when a
precondition rejected the attempt, a singleton otherwise). -/
def handleSubmit (s : AppState) (net : NetResult) : AppState × List Request :=
  match handleSubmitLocal s with
  | SubmitStep.rejected s' => (s', [])
  | SubmitStep.sent req s1 => (finishCall s1 net, [req])

/-! ## Verification review model -/

/-- JavaScript array indexing `l[i]` for an integer index: `undefined`
(here `none`) outside the bounds, the element inside. -/
def jsIndex (l : List α) (i : Int) : Option α :=
  if 0 ≤ i then l.get? i.toNat else none

/-- `latestVerification = results?.verification_history?.slice(-1)[0]`
(App.jsx 214). -/
def latestVerification (results : Option ReportResults) : Option VerificationRound :=
  results.bind fun r => r.verification_history.getLast?

/-- `verificationHistory = results?.verification_history || []`
(App.jsx 217). -/
def verificationHistory (results : Option ReportResults) : List VerificationRound :=
  match results with
  | none => []
  | some r => r.verification_history

/-- `verificationRoundsCount = verificationHistory.length` (App.jsx 218). -/
def verificationRoundsCount (results : Option ReportResults) : Nat :=
  (verificationHistory results).length

/-- `activeVerification = verificationHistory[selectedVerificationRound - 1]
|| latestVerification` (App.jsx 219-220); the history elements are
objects, hence truthy, so `||` falls back exactly on an out-of-bounds
index. -/
def activeVerification (results : Option ReportResults) (selectedVerificationRound : Int) :
    Option VerificationRound :=
  (jsIndex (verificationHistory results) (selectedVerificationRound - 1)).orElse
    fun _ => latestVerification results

/-! ## Concrete example data -/

/-- A sample verification round (the §8 Scenario A shape). -/
def exRound : VerificationRound :=
  { score := 8, summary := "ok", decision_explanation := "good",
    issues := [], strengths := [] }

/-- A sample successful results payload. -/
def exResults : ReportResults :=
  { status := "done", verification_history := [exRound], revision_history := [] }

/-- A fully filled company profile (every field non-blank). -/
def filledCompany : CompanyProfile :=
  { company_name := some "Acme"
    country := some "Finland"
    consultation_date := some "11-03-2025"
    experts := some "Umair Ali Khan, Janne Kauttonen"
    customer_manager := some "Jamie Park"
    consultation_type := some "Regular" }

/-- A logged-in state in transcript mode that passes every submission
precondition, holds a previous successful result, and has round 3
selected. -/
def exSubmitState : AppState :=
  { initialState (some "token") with
    mode := Mode.transcript
    transcript := "Hello world"
    company := filledCompany
    results := some exResults
    reportId := "old"
    selectedVerificationRound := 3 }

/-! ## Claim theorems -/

/-- Helper: when every submission precondition passes, the local phase
of the submit handler sends the built request from the started-call
state. -/
theorem handleSubmitLocal_sent_of_pass (s : AppState)
    (h1 : s.authToken ≠ "") (h2 : missingFields s.company = [])
    (h3 : ¬(s.mode = Mode.transcript ∧ jsTrim s.transcript = ""))
    (h4 : ¬(s.mode = Mode.recording ∧ s.recordingFile = none)) :
    handleSubmitLocal s = SubmitStep.sent (buildRequest s) (startCall s) := by
  unfold handleSubmitLocal
  rw [if_neg h1, if_neg (not_not_intro h2), if_neg h3, if_neg h4]

/-- Helper: when some submission precondition fails, the local phase of
the submit handler rejects, changing only the error field. -/
theorem handleSubmitLocal_rejected_of_fail (s : AppState)
    (hfail : s.authToken = "" ∨ missingFields s.company ≠ [] ∨
      (s.mode = Mode.transcript ∧ jsTrim s.transcript = "") ∨
      (s.mode = Mode.recording ∧ s.recordingFile = none)) :
    ∃ msg, handleSubmitLocal s = SubmitStep.rejected { s with error := msg } := by
  unfold handleSubmitLocal
  split_ifs with h1 h2 h3 h4
  · exact ⟨_, rfl⟩
  · exact ⟨_, rfl⟩
  · exact ⟨_, rfl⟩
  · exact ⟨_, rfl⟩
  · rcases hfail with h | h | h | h
    · exact absurd h h1
    · exact absurd h h2
    · exact absurd h h3
    · exact absurd h h4

/-- Helper: a blank required field's label is a member of
`missingFields`. -/
theorem mem_missingFields_of_blank (c : CompanyProfile) (k : FieldKey) (label : String)
    (hmem : (k, label) ∈ requiredFields) (hblank : jsIsBlank (c.get k) = true) :
    label ∈ missingFields c := by
  unfold missingFields
  exact List.mem_map.mpr ⟨(k, label), List.mem_filter.mpr ⟨hmem, hblank⟩, rfl⟩

/-- C1: for a result payload whose `verification_history` has length
N > 0 and any `selectedRound` > N, the derived `activeVerification`
equals `verificationHistory[N-1]`, the latest round: out-of-range
selection falls back to the latest round. -/
theorem activeVerification_out_of_range_falls_back_to_latest
    (r : ReportResults) (sel : Int)
    (hN : 0 < r.verification_history.length)
    (hsel : (r.verification_history.length : Int) < sel) :
    activeVerification (some r) sel =
      jsIndex r.verification_history ((r.verification_history.length : Int) - 1) := by
  have h0 : (0 : Int) ≤ sel - 1 := by omega
  have hge : r.verification_history.length ≤ (sel - 1).toNat := by omega
  have h1 : r.verification_history.get? (sel - 1).toNat = none :=
    List.get?_eq_none.mpr hge
  have h2 : (0 : Int) ≤ (r.verification_history.length : Int) - 1 := by omega
  have h3 : ((r.verification_history.length : Int) - 1).toNat =
      r.verification_history.length - 1 := by omega
  simp only [activeVerification, verificationHistory, jsIndex, if_pos h0, h1,
    Option.none_orElse', latestVerification, Option.some_bind, if_pos h2, h3]
  rw [List.getLast?_eq_getElem?, List.get?_eq_getElem?]

/-- C1 witness: a one-round history with selected round 5 displays round
one, the latest. -/
theorem activeVerification_out_of_range_falls_back_to_latest_witness :
    activeVerification
        (some { status := "done",
                verification_history := [{ score := 8, summary := "ok",
                                           decision_explanation := "good",
                                           issues := [], strengths := [] }],
                revision_history := [] }) 5 =
      jsIndex [({ score := 8, summary := "ok", decision_explanation := "good",
                  issues := [], strengths := [] } : VerificationRound)] ((1 : Int) - 1) :=
  activeVerification_out_of_range_falls_back_to_latest
    { status := "done",
      verification_history := [{ score := 8, summary := "ok",
                                 decision_explanation := "good",
                                 issues := [], strengths := [] }],
      revision_history := [] } 5 (by decide) (by decide)

/-- C2: on a profile whose six fields are all present, `missingFields`
returns exactly the labels of the fields whose value trims to the empty
string, in the declared order Company name, Country, Consultation date,
Experts, Customer manager, Consultation type, and no other labels. -/
theorem missingFields_exact_labels_in_order
    (a b c d e f : String) :
    missingFields
        { company_name := some a, country := some b, consultation_date := some c,
          experts := some d, customer_manager := some e, consultation_type := some f } =
      (if jsTrim a = "" then ["Company name"] else []) ++
      (if jsTrim b = "" then ["Country"] else []) ++
      (if jsTrim c = "" then ["Consultation date"] else []) ++
      (if jsTrim d = "" then ["Experts"] else []) ++
      (if jsTrim e = "" then ["Customer manager"] else []) ++
      (if jsTrim f = "" then ["Consultation type"] else []) := by
  simp only [missingFields, requiredFields, jsIsBlank, CompanyProfile.get,
    List.filter_cons, List.filter_nil, decide_eq_true_eq]
  split_ifs <;> simp_all

/-- C3: a submission attempt checks its preconditions in the fixed
order credential, required fields, mode-specific payload; it
short-circuits on the first failure with that failure's message and
issues no request. -/
theorem handleSubmit_precondition_order_and_messages (s : AppState) (net : NetResult) :
    (s.authToken = "" →
      handleSubmit s net =
        ({ s with error := "Please log in to generate a report." }, [])) ∧
    (s.authToken ≠ "" → missingFields s.company ≠ [] →
      handleSubmit s net =
        ({ s with error := "Missing required fields: " ++
            String.intercalate ", " (missingFields s.company) }, [])) ∧
    (s.authToken ≠ "" → missingFields s.company = [] →
      s.mode = Mode.transcript → jsTrim s.transcript = "" →
      handleSubmit s net =
        ({ s with error := "Please provide a transcript before generating the report." }, [])) ∧
    (s.authToken ≠ "" → missingFields s.company = [] →
      s.mode = Mode.recording → s.recordingFile = none →
      handleSubmit s net =
        ({ s with error := "Please upload a recording before generating the report." }, [])) := by
  refine ⟨fun h1 => ?_, fun h1 h2 => ?_, fun h1 h2 h3 h4 => ?_, fun h1 h2 h3 h4 => ?_⟩
  · simp [handleSubmit, handleSubmitLocal, h1]
  · simp [handleSubmit, handleSubmitLocal, h1, h2]
  · simp [handleSubmit, handleSubmitLocal, h1, h2, h3, h4]
  · simp [handleSubmit, handleSubmitLocal, h1, h2, h3, h4]

/-- C3 witness: in the logged-out initial state a submit attempt is
rejected with the log-in message and issues no request. -/
theorem handleSubmit_precondition_order_and_messages_witness :
    handleSubmit (initialState none) (NetResult.failure "unused") =
      ({ initialState none with error := "Please log in to generate a report." }, []) :=
  (handleSubmit_precondition_order_and_messages (initialState none)
    (NetResult.failure "unused")).1 rfl

/-- C9: a submission attempt that fails a local validation precondition
only sets the error message: the existing result and report id are
unchanged and no request is issued. -/
theorem local_validation_failure_preserves_results
    (s : AppState) (net : NetResult) (r : ReportResults)
    (hres : s.results = some r)
    (hfail : s.authToken = "" ∨ missingFields s.company ≠ [] ∨
      (s.mode = Mode.transcript ∧ jsTrim s.transcript = "") ∨
      (s.mode = Mode.recording ∧ s.recordingFile = none)) :
    (handleSubmit s net).1.results = some r ∧
    (handleSubmit s net).1.reportId = s.reportId ∧
    (handleSubmit s net).2 = [] ∧
    ∃ msg, (handleSubmit s net).1 = { s with error := msg } := by
  obtain ⟨msg, hmsg⟩ := handleSubmitLocal_rejected_of_fail s hfail
  have h : handleSubmit s net = ({ s with error := msg }, []) := by
    unfold handleSubmit
    rw [hmsg]
  rw [h]
  exact ⟨hres, rfl, rfl, msg, rfl⟩

/-- C9 witness: with a stored result and the credential missing, a
submit attempt keeps the result and report id and issues no request. -/
theorem local_validation_failure_preserves_results_witness :
    (handleSubmit { exSubmitState with authToken := "" } (NetResult.failure "unused")).1.results =
        some exResults ∧
    (handleSubmit { exSubmitState with authToken := "" } (NetResult.failure "unused")).1.reportId =
        { exSubmitState with authToken := "" }.reportId ∧
    (handleSubmit { exSubmitState with authToken := "" } (NetResult.failure "unused")).2 = [] ∧
    ∃ msg, (handleSubmit { exSubmitState with authToken := "" } (NetResult.failure "unused")).1 =
        { { exSubmitState with authToken := "" } with error := msg } :=
  local_validation_failure_preserves_results
    { exSubmitState with authToken := "" } (NetResult.failure "unused") exResults
    rfl (Or.inl rfl)

/-- C4 counterexample: a state holding a previous successful result
submits again, every precondition passes, the network call fails — and
the previous result is gone, because the handler resets results before
the call. -/
theorem submit_failure_loses_previous_results_cex :
    exSubmitState.results = some exResults ∧
    (handleSubmit exSubmitState (NetResult.failure "Network Error")).1.results = none := by
  exact ⟨rfl, rfl⟩

/-- C4 amended: when every precondition passes and the network call
fails, the failure clears loading and sets the error message, but the
previous result and report id have been cleared (not preserved) by the
optimistic reset that precedes the call. -/
theorem submit_network_failure_clears_previous_results
    (s : AppState) (msg : String)
    (h1 : s.authToken ≠ "") (h2 : missingFields s.company = [])
    (h3 : ¬(s.mode = Mode.transcript ∧ jsTrim s.transcript = ""))
    (h4 : ¬(s.mode = Mode.recording ∧ s.recordingFile = none)) :
    (handleSubmit s (NetResult.failure msg)).1.results = none ∧
    (handleSubmit s (NetResult.failure msg)).1.reportId = "" ∧
    (handleSubmit s (NetResult.failure msg)).1.error = msg ∧
    (handleSubmit s (NetResult.failure msg)).1.loading = false := by
  have hs := handleSubmitLocal_sent_of_pass s h1 h2 h3 h4
  unfold handleSubmit
  rw [hs]
  exact ⟨rfl, rfl, rfl, rfl⟩

/-- C4 amended witness: the concrete failed resubmission ends with no
result, empty report id, the transport message as error, loading off. -/
theorem submit_network_failure_clears_previous_results_witness :
    (handleSubmit exSubmitState (NetResult.failure "Network Error")).1.results = none ∧
    (handleSubmit exSubmitState (NetResult.failure "Network Error")).1.reportId = "" ∧
    (handleSubmit exSubmitState (NetResult.failure "Network Error")).1.error = "Network Error" ∧
    (handleSubmit exSubmitState (NetResult.failure "Network Error")).1.loading = false :=
  submit_network_failure_clears_previous_results exSubmitState "Network Error"
    (by decide) (by decide) (by decide) (by decide)

/-- C5: clear-all produces the documented default values for every
field it covers (mode, file, transcript and its filename, notes,
instructions, the company profile, all five workflow options,
selected round), discards the prior result, report id and error, and
leaves the credential — as well as the loading flag and the login form
fields — unchanged. -/
theorem handleClearAll_resets_to_defaults (s : AppState) :
    handleClearAll s =
      { mode := Mode.transcript
        recordingFile := none
        transcript := ""
        transcriptFileName := ""
        meetingNotes := ""
        additionalInstructions := defaultAdditionalInstructions
        company := defaultCompany
        useAzure := true
        selectedModel := "gpt-5.1"
        verificationRounds := NumOrStr.num 5
        useLanggraph := true
        compressAudio := true
        loading := s.loading
        error := ""
        reportId := ""
        results := none
        selectedVerificationRound := 1
        authUser := s.authUser
        authPassword := s.authPassword
        authShowPassword := s.authShowPassword
        authToken := s.authToken } := rfl

/-- C6 counterexample: a successful submission from a state whose
selected round is 3 stores the new report id but leaves the selected
round at 3, not at its default 1. -/
theorem submit_success_keeps_stale_selected_round_cex :
    (handleSubmit exSubmitState (NetResult.success "r1" exResults)).1.reportId = "r1" ∧
    (handleSubmit exSubmitState (NetResult.success "r1" exResults)).1.selectedVerificationRound = 3 ∧
    (handleSubmit exSubmitState (NetResult.success "r1" exResults)).1.selectedVerificationRound ≠ 1 := by
  exact ⟨rfl, rfl, by decide⟩

/-- C6 amended: on a successful submission the handler stores the
report id and the results object verbatim from the response and clears
loading, but it leaves the selected round unchanged from its prior
value rather than resetting it to 1. -/
theorem submit_success_stores_response_keeps_selection
    (s : AppState) (rid : String) (res : ReportResults)
    (h1 : s.authToken ≠ "") (h2 : missingFields s.company = [])
    (h3 : ¬(s.mode = Mode.transcript ∧ jsTrim s.transcript = ""))
    (h4 : ¬(s.mode = Mode.recording ∧ s.recordingFile = none)) :
    (handleSubmit s (NetResult.success rid res)).1.reportId = rid ∧
    (handleSubmit s (NetResult.success rid res)).1.results = some res ∧
    (handleSubmit s (NetResult.success rid res)).1.selectedVerificationRound =
      s.selectedVerificationRound ∧
    (handleSubmit s (NetResult.success rid res)).1.loading = false := by
  have hs := handleSubmitLocal_sent_of_pass s h1 h2 h3 h4
  unfold handleSubmit
  rw [hs]
  exact ⟨rfl, rfl, rfl, rfl⟩

/-- C6 amended witness: the concrete successful submission stores
report id r1 and the response results while the selected round stays at
its prior value. -/
theorem submit_success_stores_response_keeps_selection_witness :
    (handleSubmit exSubmitState (NetResult.success "r1" exResults)).1.reportId = "r1" ∧
    (handleSubmit exSubmitState (NetResult.success "r1" exResults)).1.results = some exResults ∧
    (handleSubmit exSubmitState (NetResult.success "r1" exResults)).1.selectedVerificationRound =
      exSubmitState.selectedVerificationRound ∧
    (handleSubmit exSubmitState (NetResult.success "r1" exResults)).1.loading = false :=
  submit_success_stores_response_keeps_selection exSubmitState "r1" exResults
    (by decide) (by decide) (by decide) (by decide)

/-- C7: a transcript-mode submission that passes every precondition
issues exactly one request, to the from-transcript endpoint, whose body
carries the transcript, the company object, notes, instructions,
`use_azure` as a boolean, the model, `verification_rounds` as the
number `Number(verificationRounds)` (not a string), and
`use_langgraph`; no `file` or `compress_audio` field occurs in the
body. -/
theorem transcript_submit_sends_one_structured_request
    (s : AppState) (net : NetResult)
    (h1 : s.authToken ≠ "") (h2 : missingFields s.company = [])
    (hm : s.mode = Mode.transcript) (ht : jsTrim s.transcript ≠ "") :
    (handleSubmit s net).2 =
      [{ endpoint := Endpoint.fromTranscript
         body :=
           [("transcript", BodyVal.str s.transcript),
            ("company_data", BodyVal.obj s.company),
            ("meeting_notes", BodyVal.str s.meetingNotes),
            ("additional_instructions", BodyVal.str s.additionalInstructions),
            ("use_azure", BodyVal.bool s.useAzure),
            ("selected_model", BodyVal.str s.selectedModel),
            ("verification_rounds", BodyVal.int (jsNumber s.verificationRounds)),
            ("use_langgraph", BodyVal.bool s.useLanggraph)] }] ∧
    ∀ req ∈ (handleSubmit s net).2,
      "file" ∉ req.body.map Prod.fst ∧ "compress_audio" ∉ req.body.map Prod.fst := by
  have h3 : ¬(s.mode = Mode.transcript ∧ jsTrim s.transcript = "") := fun h => ht h.2
  have h4 : ¬(s.mode = Mode.recording ∧ s.recordingFile = none) := fun h => by
    rw [hm] at h
    exact absurd h.1 (by decide)
  have hs := handleSubmitLocal_sent_of_pass s h1 h2 h3 h4
  have hbody : (handleSubmit s net).2 = [buildRequest s] := by
    unfold handleSubmit
    rw [hs]
  have hreq : buildRequest s =
      { endpoint := Endpoint.fromTranscript
        body :=
          [("transcript", BodyVal.str s.transcript),
           ("company_data", BodyVal.obj s.company),
           ("meeting_notes", BodyVal.str s.meetingNotes),
           ("additional_instructions", BodyVal.str s.additionalInstructions),
           ("use_azure", BodyVal.bool s.useAzure),
           ("selected_model", BodyVal.str s.selectedModel),
           ("verification_rounds", BodyVal.int (jsNumber s.verificationRounds)),
           ("use_langgraph", BodyVal.bool s.useLanggraph)] } := by
    unfold buildRequest
    rw [hm]
  refine ⟨by rw [hbody, hreq], ?_⟩
  intro req hmem
  rw [hbody, hreq] at hmem
  rcases List.mem_singleton.mp hmem with rfl
  exact ⟨by simp, by simp⟩

/-- C7 witness: the concrete transcript submission issues exactly the
structured from-transcript request and its body has no audio fields. -/
theorem transcript_submit_sends_one_structured_request_witness :
    (handleSubmit exSubmitState (NetResult.success "r1" exResults)).2 =
      [{ endpoint := Endpoint.fromTranscript
         body :=
           [("transcript", BodyVal.str exSubmitState.transcript),
            ("company_data", BodyVal.obj exSubmitState.company),
            ("meeting_notes", BodyVal.str exSubmitState.meetingNotes),
            ("additional_instructions", BodyVal.str exSubmitState.additionalInstructions),
            ("use_azure", BodyVal.bool exSubmitState.useAzure),
            ("selected_model", BodyVal.str exSubmitState.selectedModel),
            ("verification_rounds", BodyVal.int (jsNumber exSubmitState.verificationRounds)),
            ("use_langgraph", BodyVal.bool exSubmitState.useLanggraph)] }] ∧
    ∀ req ∈ (handleSubmit exSubmitState (NetResult.success "r1" exResults)).2,
      "file" ∉ req.body.map Prod.fst ∧ "compress_audio" ∉ req.body.map Prod.fst :=
  transcript_submit_sends_one_structured_request exSubmitState
    (NetResult.success "r1" exResults) (by decide) (by decide) (by decide) (by decide)

/-- C8 counterexample: the invariant "the stored verificationRounds is
an integer in 1-5" holds in the initial state but is broken by a user
edit, because the input's onChange stores the raw string (here "7")
unparsed and unclamped. -/
theorem verificationRounds_user_edit_breaks_invariant_cex :
    vrIsIntInRange (initialState none).verificationRounds = true ∧
    vrIsIntInRange
      ((setVerificationRoundsFromInput (initialState none) "7").verificationRounds) = false :=
  ⟨rfl, rfl⟩

/-- C8 amended: the stored verificationRounds is the integer 5 (within
1-5) initially and after clear-all, but a user edit of the field stores
the raw input string verbatim, so the integer-in-range invariant is not
maintained across edits; the value is converted to a number only when a
request is built. -/
theorem verificationRounds_defaults_and_edit_behavior
    (s : AppState) (tok : Option String) (v : String) :
    vrIsIntInRange (initialState tok).verificationRounds = true ∧
    vrIsIntInRange (handleClearAll s).verificationRounds = true ∧
    (setVerificationRoundsFromInput s v).verificationRounds = NumOrStr.str v :=
  ⟨rfl, rfl, rfl⟩

/-- C10: `missingFields` is total on profiles with absent fields: a
`null`/`undefined` field never makes it fail — the optional-chaining
guard turns it into a blank — and its label is reported missing. -/
theorem missingFields_total_on_absent_fields (c : CompanyProfile) :
    (c.company_name = none → "Company name" ∈ missingFields c) ∧
    (c.country = none → "Country" ∈ missingFields c) ∧
    (c.consultation_date = none → "Consultation date" ∈ missingFields c) ∧
    (c.experts = none → "Experts" ∈ missingFields c) ∧
    (c.customer_manager = none → "Customer manager" ∈ missingFields c) ∧
    (c.consultation_type = none → "Consultation type" ∈ missingFields c) :=
  ⟨fun h => mem_missingFields_of_blank c FieldKey.company_name "Company name"
      (by decide) (by simp [CompanyProfile.get, jsIsBlank, h]),
   fun h => mem_missingFields_of_blank c FieldKey.country "Country"
      (by decide) (by simp [CompanyProfile.get, jsIsBlank, h]),
   fun h => mem_missingFields_of_blank c FieldKey.consultation_date "Consultation date"
      (by decide) (by simp [CompanyProfile.get, jsIsBlank, h]),
   fun h => mem_missingFields_of_blank c FieldKey.experts "Experts"
      (by decide) (by simp [CompanyProfile.get, jsIsBlank, h]),
   fun h => mem_missingFields_of_blank c FieldKey.customer_manager "Customer manager"
      (by decide) (by simp [CompanyProfile.get, jsIsBlank, h]),
   fun h => mem_missingFields_of_blank c FieldKey.consultation_type "Consultation type"
      (by decide) (by simp [CompanyProfile.get, jsIsBlank, h])⟩

/-- C10 witness: on the profile with every field absent, all six labels
are reported missing. -/
theorem missingFields_total_on_absent_fields_witness :
    "Company name" ∈ missingFields ⟨none, none, none, none, none, none⟩ ∧
    "Country" ∈ missingFields ⟨none, none, none, none, none, none⟩ ∧
    "Consultation date" ∈ missingFields ⟨none, none, none, none, none, none⟩ ∧
    "Experts" ∈ missingFields ⟨none, none, none, none, none, none⟩ ∧
    "Customer manager" ∈ missingFields ⟨none, none, none, none, none, none⟩ ∧
    "Consultation type" ∈ missingFields ⟨none, none, none, none, none, none⟩ :=
  ⟨(missingFields_total_on_absent_fields ⟨none, none, none, none, none, none⟩).1 rfl,
   (missingFields_total_on_absent_fields ⟨none, none, none, none, none, none⟩).2.1 rfl,
   (missingFields_total_on_absent_fields ⟨none, none, none, none, none, none⟩).2.2.1 rfl,
   (missingFields_total_on_absent_fields ⟨none, none, none, none, none, none⟩).2.2.2.1 rfl,
   (missingFields_total_on_absent_fields ⟨none, none, none, none, none, none⟩).2.2.2.2.1 rfl,
   (missingFields_total_on_absent_fields ⟨none, none, none, none, none, none⟩).2.2.2.2.2 rfl⟩

end ReportStudio
